import Mathlib

/-!
Shallow embedding of the Mirai idol-manager simulation engine
(src/mirai_v0.0.1-alpha.py).

Conventions of the embedding:
* Python ints are `ℤ`; Python floats are `ℚ` (the engine only ever adds,
  multiplies and compares them, which `ℚ` models exactly; the one float
  square root, `fans ** 0.5` inside `live`, is supplied as an input
  `Rand.sqrtFans` since it has no exact rational value).
* `int(x)` on a float truncates toward zero: `itrunc`.
* Every random draw made by a resolver is a field of `Rand`, passed in
  explicitly; theorems quantify over all draws, adding the draw's
  documented range as a hypothesis only where the property needs it.
* The interactive prompts (cancel paths, menu validation) are UI glue and
  are outside the engine; a resolver takes the already-validated choice.
* Strings built with Python float formatting (`:.1f`, `:+.2f`) are
  modelled with `toString`; no property depends on the text of a report.
-/

namespace Mirai

/-- Truncation toward zero of a rational, the behaviour of Python `int()`
on a float. -/
def itrunc (q : ℚ) : ℤ :=
  if q < 0 then ⌈q⌉ else ⌊q⌋

/-- `max(1, min(100, n))`, the per-stat clamp used by `Idol.clamp_stats`. -/
def clamp1 (n : ℤ) : ℤ :=
  max 1 (min 100 n)

/-- Replace the element at index `i` (0-based) by `f` of it; no-op out of
range.  Models in-place mutation of one list element. -/
def modifyIdx {α : Type} (l : List α) (i : ℕ) (f : α → α) : List α :=
  match l, i with
  | [], _ => []
  | x :: xs, 0 => f x :: xs
  | x :: xs, n + 1 => x :: modifyIdx xs n f

/-- Map with the element index, starting the count at `n`.  Models a
`for` loop whose body draws one random number per element. -/
def mapIdxFrom {α : Type} (f : ℕ → α → α) : ℕ → List α → List α
  | _, [] => []
  | n, x :: xs => f n x :: mapIdxFrom f (n + 1) xs

/-- The closed set of stat names (`STATS` in the source). -/
inductive StatName : Type
  | vocal
  | dance
  | visual
  | stamina
  | mental
deriving DecidableEq, Repr

instance : Fintype StatName :=
  ⟨⟨{.vocal, .dance, .visual, .stamina, .mental}, by decide⟩, by
    intro x; cases x <;> decide⟩

/-- The five-stat record of one performer (`Idol.stats`, a dict keyed by
`STATS` in the source; the key set is fixed, so a record is faithful). -/
structure Stats : Type where
  vocal : ℤ
  dance : ℤ
  visual : ℤ
  stamina : ℤ
  mental : ℤ
deriving DecidableEq, Repr

/-- Read one stat by name (`idol.stats[k]`). -/
def Stats.get (s : Stats) : StatName → ℤ
  | .vocal => s.vocal
  | .dance => s.dance
  | .visual => s.visual
  | .stamina => s.stamina
  | .mental => s.mental

/-- Write one stat by name (`idol.stats[k] = v`). -/
def Stats.set (s : Stats) : StatName → ℤ → Stats
  | .vocal, v => { s with vocal := v }
  | .dance, v => { s with dance := v }
  | .visual, v => { s with visual := v }
  | .stamina, v => { s with stamina := v }
  | .mental, v => { s with mental := v }

/-- `idol.stats[attr] += gain`. -/
def Stats.add (s : Stats) (k : StatName) (v : ℤ) : Stats :=
  s.set k (s.get k + v)

/-- `Idol.clamp_stats`: every stat becomes `max(1, min(100, int(stat)))`
(the inner `int()` is the identity on our integer stats). -/
def Stats.clamp (s : Stats) : Stats :=
  ⟨clamp1 s.vocal, clamp1 s.dance, clamp1 s.visual, clamp1 s.stamina,
    clamp1 s.mental⟩

/-- One performer (`Idol`). -/
structure Idol : Type where
  name : String
  age : ℤ
  role : String
  blurb : String
  stats : Stats
deriving DecidableEq, Repr

/-- `Idol.clamp_stats` acting on the whole record. -/
def Idol.clamp_stats (i : Idol) : Idol :=
  { i with stats := i.stats.clamp }

/-- `Idol.avg_perf`: 0.30·vocal + 0.30·dance + 0.25·visual + 0.10·mental
+ 0.05·stamina. -/
def Idol.avg_perf (i : Idol) : ℚ :=
  0.30 * (i.stats.vocal : ℚ) + 0.30 * (i.stats.dance : ℚ)
    + 0.25 * (i.stats.visual : ℚ) + 0.10 * (i.stats.mental : ℚ)
    + 0.05 * (i.stats.stamina : ℚ)

/-- The whole mutable session state (`GroupState`). -/
structure GroupState : Type where
  name : String
  agency : String
  ai_name : String
  idols : List Idol
  day : ℤ := 1
  funds : ℤ := 2000
  fans : ℤ := 40
  reputation : ℚ := 0
  last_live_report : String := ""
deriving DecidableEq, Repr

/-- `GroupState.group_perf`: mean of the performers' `avg_perf`. -/
def GroupState.group_perf (s : GroupState) : ℚ :=
  (s.idols.map Idol.avg_perf).sum / (s.idols.length : ℚ)

/-- `GroupState.group_energy`: mean stamina and mean mental, averaged. -/
def GroupState.group_energy (s : GroupState) : ℚ :=
  let st := (s.idols.map fun i => (i.stats.stamina : ℚ)).sum / (s.idols.length : ℚ)
  let me := (s.idols.map fun i => (i.stats.mental : ℚ)).sum / (s.idols.length : ℚ)
  (st + me) / 2

/-- Target of practice / work: one 0-based performer index (menu choice
1–3) or the whole group (menu choice 4). -/
inductive Target : Type
  | solo (i : ℕ)
  | group
deriving DecidableEq, Repr

/-- The two work sub-activities. -/
inductive Activity : Type
  | flyers
  | guerilla
deriving DecidableEq, Repr

/-- Result marker of a resolver: completed, or aborted on the funds
check with no state change. -/
inductive Outcome : Type
  | ok
  | insufficientFunds
deriving DecidableEq, Repr

/-- All random draws one engine call can make.  Per-performer draws are
functions of the performer's index.  `sqrtFans` stands for the float
`state.fans ** 0.5` of `live` (see the file comment). -/
structure Rand : Type where
  /-- practice: `random.randint(2, 5)` (or `(2, 6)` for stamina/mental). -/
  baseGain : ℤ
  /-- practice solo: `random.randint(0, 3)`. -/
  soloExtra : ℤ
  /-- practice group, per performer: `random.randint(0, 2)`. -/
  groupExtra : ℕ → ℤ
  /-- work flyers: `random.randint(8, 16)`. -/
  flyersBase : ℤ
  /-- work guerilla: `random.uniform(0.85, 1.20)`. -/
  crowdRoll : ℚ
  /-- work guerilla: `random.randint(10, 30)`. -/
  guerillaBase : ℤ
  /-- work guerilla: `random.uniform(-0.01, 0.03)`. -/
  guerillaRep : ℚ
  /-- live: the float square root `state.fans ** 0.5`. -/
  sqrtFans : ℚ
  /-- live: `random.uniform(-3, 6)` in the hype formula. -/
  hypeU : ℚ
  /-- live: `random.randint(15, 60)` park walk-ins. -/
  walkIns : ℤ
  /-- live: `random.uniform(-2.5, 2.5)` in the performance score. -/
  perfU : ℚ
  /-- live: `random.uniform(-3, 3)` in the satisfaction. -/
  satU : ℚ
  /-- live: `random.randint(40, 90)` merch per head. -/
  merch : ℤ
  /-- live: `random.randint(2, 12)` extra gained fans. -/
  fanBonus : ℤ
  /-- live: `random.randint(1, 8)` in the lost-fans formula. -/
  lostRoll : ℤ
  /-- rest, per performer: `random.randint(6, 10)` stamina recovery. -/
  restStamina : ℕ → ℤ
  /-- rest, per performer: `random.randint(5, 9)` mental recovery. -/
  restMental : ℕ → ℤ
  /-- end of day: `random.randint(-1, 3)` in the fan drift. -/
  drift : ℤ

-- ---------------------------- Mechanics ----------------------------

/-- `apply_fatigue`: subtract the costs from stamina and mental, then
`clamp_stats`. -/
def apply_fatigue (i : Idol) (stamina_cost mental_cost : ℤ) : Idol :=
  Idol.clamp_stats
    { i with stats := { i.stats with
        stamina := i.stats.stamina - stamina_cost,
        mental := i.stats.mental - mental_cost } }

/-- `practice`: funds check (120 solo / 220 group), then stat gain,
fatigue and reputation.  The body of the loop follows the source:
add the gain to the chosen stat, `apply_fatigue`, `clamp_stats` again. -/
def practice (s : GroupState) (tgt : Target) (attr : StatName) (r : Rand) :
    GroupState × Outcome :=
  let base_gain := r.baseGain
  let funds_cost : ℤ := match tgt with | .solo _ => 120 | .group => 220
  if s.funds < funds_cost then (s, .insufficientFunds)
  else
    match tgt with
    | .group =>
        let idols := mapIdxFrom (fun j idol =>
          let gain := max 1 (base_gain - 1 + r.groupExtra j)
          (apply_fatigue { idol with stats := idol.stats.add attr gain } 2 1).clamp_stats)
          0 s.idols
        ({ s with funds := s.funds - funds_cost, idols := idols,
                  reputation := s.reputation + 0.03 }, .ok)
    | .solo i =>
        let idols := modifyIdx s.idols i (fun idol =>
          let gain := base_gain + r.soloExtra
          (apply_fatigue { idol with stats := idol.stats.add attr gain } 3 2).clamp_stats)
        ({ s with funds := s.funds - funds_cost, idols := idols,
                  reputation := s.reputation + 0.01 }, .ok)

/-- The performers selected to work (`workers` in the source): one by
index, or the whole roster.  An out-of-range index yields `[]` (the UI
makes it impossible). -/
def selectWorkers (idols : List Idol) : Target → List Idol
  | .solo i => match idols[i]? with | some x => [x] | none => []
  | .group => idols

/-- Apply `f` to exactly the selected performers inside the roster
(Python mutates the `workers` references in place). -/
def applyToTarget (idols : List Idol) (tgt : Target) (f : Idol → Idol) :
    List Idol :=
  match tgt with
  | .solo i => modifyIdx idols i f
  | .group => idols.map f

/-- `work`, flyers branch: cost 60; fan gain
`max(5, int(randint(8,16) + (vis+men)·0.10 + reputation·4))`; fatigue
stamina −1 / mental −1 per worker. -/
def workFlyers (s : GroupState) (tgt : Target) (r : Rand) :
    GroupState × Outcome :=
  if s.funds < 60 then (s, .insufficientFunds)
  else
    let workers := selectWorkers s.idols tgt
    let vis : ℚ := (workers.map fun i => (i.stats.visual : ℚ)).sum / (workers.length : ℚ)
    let men : ℚ := (workers.map fun i => (i.stats.mental : ℚ)).sum / (workers.length : ℚ)
    let gain := max 5 (itrunc ((r.flyersBase : ℚ) + (vis + men) * 0.10 + s.reputation * 4))
    ({ s with funds := s.funds - 60, fans := s.fans + gain,
              idols := applyToTarget s.idols tgt (fun i => apply_fatigue i 1 1) }, .ok)

/-- `work`, guerilla-live branch: cost 140; fan gain
`max(6, int((perf·0.55 + randint(10,30) + reputation·10)·crowdRoll −
exhaustionPenalty))`; reputation delta `(perf−45)/900 + uniform(−0.01,0.03)`;
fatigue stamina −4 / mental −3 per worker. -/
def workGuerilla (s : GroupState) (tgt : Target) (r : Rand) :
    GroupState × Outcome :=
  if s.funds < 140 then (s, .insufficientFunds)
  else
    let workers := selectWorkers s.idols tgt
    let perf : ℚ := (workers.map Idol.avg_perf).sum / (workers.length : ℚ)
    let energy : ℚ :=
      (workers.map fun i => ((i.stats.stamina : ℚ) + (i.stats.mental : ℚ)) / 2).sum
        / (workers.length : ℚ)
    let exhaustion_penalty := max 0 ((55 - energy) * 0.12)
    let gain := max 6 (itrunc
      ((perf * 0.55 + (r.guerillaBase : ℚ) + s.reputation * 10) * r.crowdRoll
        - exhaustion_penalty))
    let rep_delta := (perf - 45) / 900 + r.guerillaRep
    ({ s with funds := s.funds - 140, fans := s.fans + gain,
              reputation := s.reputation + rep_delta,
              idols := applyToTarget s.idols tgt (fun i => apply_fatigue i 4 3) }, .ok)

/-- `work`: dispatch on the chosen activity. -/
def work (s : GroupState) (tgt : Target) (act : Activity) (r : Rand) :
    GroupState × Outcome :=
  match act with
  | .flyers => workFlyers s tgt r
  | .guerilla => workGuerilla s tgt r

-- ---------------------------- Live ----------------------------

/-- Hype: `max(0, fans**0.5 · 4 + reputation·20 + uniform(−3,6))`. -/
def liveHype (s : GroupState) (r : Rand) : ℚ :=
  max 0 (r.sqrtFans * 4 + s.reputation * 20 + r.hypeU)

/-- Turnout: `max(0, min(300, int(fans·(0.18 + min(0.22, hype/200)) +
walkIns)))`. -/
def liveTurnout (fans : ℤ) (hype : ℚ) (walkIns : ℤ) : ℤ :=
  max 0 (min 300 (itrunc ((fans : ℚ) * (0.18 + min 0.22 (hype / 200)) + (walkIns : ℚ))))

/-- `energy_factor = 1.0 − max(0.0, (55 − energy)/120.0)`. -/
def energyFactor (energy : ℚ) : ℚ :=
  1 - max 0 ((55 - energy) / 120)

/-- `[1.02, 1.01, 1.00][form_idx]`. -/
def formBonus : Fin 3 → ℚ
  | 0 => 1.02
  | 1 => 1.01
  | 2 => 1.00

/-- `performance_score = perf·form_bonus·energy_factor + uniform(−2.5,2.5)
+ hype/25`. -/
def livePerfScore (s : GroupState) (k : Fin 3) (r : Rand) : ℚ :=
  s.group_perf * formBonus k * energyFactor s.group_energy + r.perfU
    + liveHype s r / 25

/-- `satisfaction = performance_score + uniform(−3,3)`. -/
def liveSatisfaction (s : GroupState) (k : Fin 3) (r : Rand) : ℚ :=
  livePerfScore s k r + r.satU

/-- The satisfaction-tier ladder of `live` (lines 432–447 of the source):
review string, fan multiplier, reputation delta, checked in descending
order of threshold. -/
def tier (satisfaction : ℚ) : String × ℚ × ℚ :=
  if 62 ≤ satisfaction then
    ("The crowd roared - people stayed to watch twice.", 0.22, 0.10)
  else if 54 ≤ satisfaction then
    ("A warm reception - new faces asked for your next schedule.", 0.14, 0.05)
  else if 48 ≤ satisfaction then
    ("A decent showing - some cheers, some polite claps.", 0.08, 0.02)
  else
    ("Nerves showed - but you finished the song together.", 0.04, -0.01)

/-- The formation names offered by `live`. -/
def formationName : Fin 3 → String
  | 0 => "Classic Triangle (Aoi center)"
  | 1 => "Twin Wings (Yui & Rina front)"
  | 2 => "Line-Up (equal focus)"

/-- The last-live-report text (float formatting abstracted to
`toString`; no property depends on this text). -/
def mkLiveReport (turnout : ℤ) (perf energy hype score satisfaction : ℚ)
    (review : String) (income gained lost : ℤ) (repDelta : ℚ) (k : Fin 3) :
    String :=
  String.intercalate "\n"
    [ "LIVE REPORT - Hoshizora Park Stage"
    , "Song: Sunset Protocol (Debut Ver.)"
    , "Formation: " ++ formationName k
    , ""
    , "Turnout: " ++ toString turnout ++ "/300"
    , "Group Performance: " ++ toString perf ++ "  |  Energy: " ++ toString energy
        ++ "  |  Hype: " ++ toString hype
    , "Performance Score: " ++ toString score ++ "  |  Satisfaction: "
        ++ toString satisfaction
    , "Review: " ++ review
    , ""
    , "Funds: +" ++ toString income ++ " income  -350 costs"
    , "Fans: +" ++ toString gained ++ " gained  -" ++ toString lost ++ " lost"
    , "Reputation change: " ++ toString repDelta ]

/-- `live`: venue cost 350 checked first (no mutation on abort), then
turnout, performance, satisfaction tier, settlement, fan update, fatigue
(stamina −6 / mental −5 each), reputation, and the stored report. -/
def live (s : GroupState) (k : Fin 3) (r : Rand) : GroupState × Outcome :=
  if s.funds < 350 then (s, .insufficientFunds)
  else
    let perf := s.group_perf
    let energy := s.group_energy
    let hype := liveHype s r
    let turnout := liveTurnout s.fans hype r.walkIns
    let performance_score := livePerfScore s k r
    let satisfaction := liveSatisfaction s k r
    let t := tier satisfaction
    let income := turnout * (400 + r.merch)
    let gained_fans := itrunc ((turnout : ℚ) * t.2.1 + (r.fanBonus : ℚ))
    let lost_fans : ℤ :=
      if satisfaction < 46 then itrunc (min ((s.fans : ℚ) * 0.03) (r.lostRoll : ℚ))
      else 0
    ({ s with
        funds := s.funds + income - 350,
        fans := max 0 (s.fans + gained_fans - lost_fans),
        idols := s.idols.map (fun i => apply_fatigue i 6 5),
        reputation := s.reputation + t.2.2,
        last_live_report := mkLiveReport turnout perf energy hype
          performance_score satisfaction t.1 income gained_fans lost_fans
          t.2.2 k }, .ok)

/-- `rest_day`: each performer gains `randint(6,10)` stamina and
`randint(5,9)` mental then is clamped; reputation drops by 0.01 floored
at −1.0; no cost. -/
def rest_day (s : GroupState) (r : Rand) : GroupState × Outcome :=
  let idols := mapIdxFrom (fun j idol =>
    Idol.clamp_stats { idol with stats := { idol.stats with
      stamina := idol.stats.stamina + r.restStamina j,
      mental := idol.stats.mental + r.restMental j } }) 0 s.idols
  ({ s with idols := idols, reputation := max (-1) (s.reputation - 0.01) }, .ok)

/-- `end_day`: day + 1; `drift = int(reputation·2 + randint(−1,3))`;
fans grow by drift only when positive; fans clamped at 0. -/
def end_day (s : GroupState) (r : Rand) : GroupState × Outcome :=
  let drift := itrunc (s.reputation * 2 + (r.drift : ℚ))
  let fans1 := if 0 < drift then s.fans + drift else s.fans
  ({ s with day := s.day + 1, fans := max 0 fans1 }, .ok)

/-- The engine operations the menu can invoke (state-mutating ones). -/
inductive Action : Type
  | practiceAct (tgt : Target) (attr : StatName)
  | workAct (tgt : Target) (act : Activity)
  | liveAct (k : Fin 3)
  | restAct
  | endDayAct
deriving DecidableEq

/-- Dispatch of one engine operation (the `main` menu, UI stripped). -/
def step (s : GroupState) (a : Action) (r : Rand) : GroupState × Outcome :=
  match a with
  | .practiceAct tgt attr => practice s tgt attr r
  | .workAct tgt act => work s tgt act r
  | .liveAct k => live s k r
  | .restAct => rest_day s r
  | .endDayAct => end_day s r

/-- The fixed cost of a paid action; `none` for the free ones. -/
def Action.paidCost : Action → Option ℤ
  | .practiceAct (.solo _) _ => some 120
  | .practiceAct .group _ => some 220
  | .workAct _ .flyers => some 60
  | .workAct _ .guerilla => some 140
  | .liveAct _ => some 350
  | .restAct => none
  | .endDayAct => none

-- ---------------------------- Persistence ----------------------------

/-- The serialized `stats` sub-dict: each named key may be absent
(`payload.get("stats", {}).get(k, 1)`). -/
structure StatsDict : Type where
  vocal : Option ℤ
  dance : Option ℤ
  visual : Option ℤ
  stamina : Option ℤ
  mental : Option ℤ
deriving DecidableEq, Repr

/-- One serialized performer record. -/
structure IdolDict : Type where
  name : Option String
  age : Option ℤ
  role : Option String
  blurb : Option String
  stats : Option StatsDict
deriving DecidableEq, Repr

/-- The serialized snapshot (`_state_to_dict`'s shape); every key may be
absent on the way back in. -/
structure StateDict : Type where
  name : Option String
  agency : Option String
  ai_name : Option String
  day : Option ℤ
  funds : Option ℤ
  fans : Option ℤ
  reputation : Option ℚ
  last_live_report : Option String
  idols : Option (List IdolDict)
deriving DecidableEq, Repr

/-- One performer's entry in `_state_to_dict`. -/
def idol_to_dict (i : Idol) : IdolDict :=
  { name := some i.name, age := some i.age, role := some i.role,
    blurb := some i.blurb,
    stats := some ⟨some i.stats.vocal, some i.stats.dance,
      some i.stats.visual, some i.stats.stamina, some i.stats.mental⟩ }

/-- `_state_to_dict`. -/
def state_to_dict (s : GroupState) : StateDict :=
  { name := some s.name, agency := some s.agency, ai_name := some s.ai_name,
    day := some s.day, funds := some s.funds, fans := some s.fans,
    reputation := some s.reputation,
    last_live_report := some s.last_live_report,
    idols := some (s.idols.map idol_to_dict) }

/-- `{k: int(payload.get("stats", {}).get(k, 1)) for k in STATS}`. -/
def stats_from_dict : Option StatsDict → Stats
  | none => ⟨1, 1, 1, 1, 1⟩
  | some sd => ⟨sd.vocal.getD 1, sd.dance.getD 1, sd.visual.getD 1,
      sd.stamina.getD 1, sd.mental.getD 1⟩

/-- One performer from its dict, defaults applied, then `clamp_stats`. -/
def idol_from_dict (p : IdolDict) : Idol :=
  Idol.clamp_stats
    { name := p.name.getD "Unknown", age := p.age.getD 15,
      role := p.role.getD "Member", blurb := p.blurb.getD "",
      stats := stats_from_dict p.stats }

/-- `_state_from_dict`: rebuild the performers (empty list means `None`),
then the state with each field defaulted. -/
def state_from_dict (d : StateDict) : Option GroupState :=
  let idols := (d.idols.getD []).map idol_from_dict
  if idols.isEmpty then none
  else some
    { name := d.name.getD "Sunset Symphony",
      agency := d.agency.getD "Mirai Productions",
      ai_name := d.ai_name.getD "ORACLE//MIRAI",
      idols := idols,
      day := d.day.getD 1, funds := d.funds.getD 2000,
      fans := d.fans.getD 40, reputation := d.reputation.getD 0,
      last_live_report := d.last_live_report.getD "" }

-- ---------------------------- Setup ----------------------------

/-- `make_game`: the fixed starting roster and state. -/
def make_game : GroupState :=
  { name := "Sunset Symphony", agency := "Mirai Productions",
    ai_name := "ORACLE//MIRAI",
    idols :=
      [ { name := "Aoi Kisaragi", age := 15,
          role := "Leader (quiet, searching for her smile)",
          blurb := "Shy and sharply observant, Aoi speaks softly like she’s afraid of taking up space. She calls herself a realist - others might say nihilistic - but something in her keeps reaching for warmth anyway. The AI chose her as leader for her steadiness under pressure. She’s learning how to smile on purpose, not by accident.",
          stats := ⟨46, 44, 48, 52, 60⟩ }
      , { name := "Yui Tachibana", age := 15,
          role := "Mood-maker (bubbly, clumsy, sincere)",
          blurb := "Yui is bright enough to light a hallway - sometimes literally, because she trips over cables. She wants to make people happy more than she wants applause. When she laughs, the room forgives everything. The AI flagged her “empathy resonance” as unusually high.",
          stats := ⟨42, 50, 47, 58, 48⟩ }
      , { name := "Rina Kurosawa", age := 16,
          role := "Strategist (smart, serious, skeptical)",
          blurb := "Rina learns fast, speaks precisely, and doesn’t trust dreams that can’t be measured. At first she doubts the project - an AI picking idols felt like a gimmick to her. But she can’t ignore the data: the group is improving, and something real is forming. She’ll believe in Sunset Symphony when it earns it.",
          stats := ⟨50, 46, 45, 50, 62⟩ } ],
    day := 1, funds := 2000, fans := 40, reputation := 0,
    last_live_report := "" }

-- ---------------------------- Invariant predicates ----------------------------

/-- All five stats of one record are integers in [1, 100]. -/
def Stats.InRange (s : Stats) : Prop :=
  (1 ≤ s.vocal ∧ s.vocal ≤ 100) ∧ (1 ≤ s.dance ∧ s.dance ≤ 100) ∧
  (1 ≤ s.visual ∧ s.visual ≤ 100) ∧ (1 ≤ s.stamina ∧ s.stamina ≤ 100) ∧
  (1 ≤ s.mental ∧ s.mental ≤ 100)

instance (s : Stats) : Decidable s.InRange := by
  unfold Stats.InRange; infer_instance

/-- Every performer of the state has all stats in [1, 100]. -/
def GroupState.StatsInRange (s : GroupState) : Prop :=
  ∀ i ∈ s.idols, i.stats.InRange

instance (s : GroupState) : Decidable s.StatsInRange :=
  List.decidableBAll _ s.idols

-- ---------------------------- Helper lemmas ----------------------------

theorem clamp1_bounds (n : ℤ) : 1 ≤ clamp1 n ∧ clamp1 n ≤ 100 := by
  unfold clamp1; omega

theorem Stats.clamp_inRange (s : Stats) : s.clamp.InRange := by
  obtain ⟨a, b, c, d, e⟩ := s
  simp only [Stats.clamp, Stats.InRange, clamp1]
  omega

theorem Stats.clamp_of_inRange (s : Stats) (h : s.InRange) : s.clamp = s := by
  obtain ⟨a, b, c, d, e⟩ := s
  simp only [Stats.InRange] at h
  simp only [Stats.clamp, clamp1, Stats.mk.injEq]
  omega

theorem Idol.clamp_stats_inRange (i : Idol) : i.clamp_stats.stats.InRange :=
  Stats.clamp_inRange i.stats

theorem apply_fatigue_inRange (i : Idol) (sc mc : ℤ) :
    (apply_fatigue i sc mc).stats.InRange :=
  Stats.clamp_inRange _

theorem modifyIdx_forall {α : Type} {P : α → Prop} :
    ∀ (l : List α) (i : ℕ) (f : α → α),
      (∀ x ∈ l, P x) → (∀ x, P (f x)) → ∀ x ∈ modifyIdx l i f, P x
  | [], _, _, _, _ => by intro x hx; simp [modifyIdx] at hx
  | a :: l, 0, f, h1, h2 => by
      intro x hx
      simp only [modifyIdx, List.mem_cons] at hx
      rcases hx with rfl | hx
      · exact h2 a
      · exact h1 x (List.mem_cons_of_mem _ hx)
  | a :: l, i + 1, f, h1, h2 => by
      intro x hx
      simp only [modifyIdx, List.mem_cons] at hx
      rcases hx with rfl | hx
      · exact h1 x (List.mem_cons_self _ _)
      · exact modifyIdx_forall l i f
          (fun y hy => h1 y (List.mem_cons_of_mem _ hy)) h2 x hx

theorem mapIdxFrom_forall {α : Type} {P : α → Prop} (f : ℕ → α → α)
    (h : ∀ n x, P (f n x)) :
    ∀ (n : ℕ) (l : List α), ∀ x ∈ mapIdxFrom f n l, P x
  | _, [] => by intro x hx; simp [mapIdxFrom] at hx
  | n, a :: l => by
      intro x hx
      simp only [mapIdxFrom, List.mem_cons] at hx
      rcases hx with rfl | hx
      · exact h n a
      · exact mapIdxFrom_forall f h (n + 1) l x hx

theorem applyToTarget_forall {P : Idol → Prop} (idols : List Idol)
    (tgt : Target) (f : Idol → Idol)
    (h1 : ∀ x ∈ idols, P x) (h2 : ∀ x, P (f x)) :
    ∀ x ∈ applyToTarget idols tgt f, P x := by
  cases tgt with
  | solo i => exact modifyIdx_forall idols i f h1 h2
  | group =>
      intro x hx
      rcases List.mem_map.1 hx with ⟨y, _, rfl⟩
      exact h2 y

theorem itrunc_eq_floor (q : ℚ) (h : 0 ≤ q) : itrunc q = ⌊q⌋ :=
  if_neg (not_lt.2 h)

theorem ceil_nonpos (q : ℚ) (h : q ≤ 0) : ⌈q⌉ ≤ 0 :=
  Int.ceil_le.2 (by exact_mod_cast h)

theorem itrunc_le (q : ℚ) (h : 0 ≤ q) : (itrunc q : ℚ) ≤ q := by
  rw [itrunc_eq_floor q h]; exact Int.floor_le q

theorem itrunc_nonpos (q : ℚ) (h : q ≤ 0) : itrunc q ≤ 0 := by
  unfold itrunc
  split
  · exact ceil_nonpos q h
  · exact le_trans (Int.floor_le_ceil q) (ceil_nonpos q h)

theorem le_itrunc (n : ℤ) (q : ℚ) (h0 : 0 ≤ n) (h : (n : ℚ) ≤ q) :
    n ≤ itrunc q := by
  rw [itrunc_eq_floor q (le_trans (by exact_mod_cast h0) h)]
  exact Int.le_floor.2 h

theorem itrunc_pos_iff (q : ℚ) : 0 < itrunc q ↔ 0 < ⌊q⌋ := by
  rcases lt_or_le q 0 with h | h
  · rw [itrunc, if_pos h]
    constructor
    · intro hc; exact absurd (ceil_nonpos q h.le) (by omega)
    · intro hc; exact absurd (le_trans (Int.floor_le_ceil q) (ceil_nonpos q h.le)) (by omega)
  · rw [itrunc_eq_floor q h]

theorem itrunc_eq_floor_of_floor_pos (q : ℚ) (h : 0 < ⌊q⌋) : itrunc q = ⌊q⌋ := by
  refine itrunc_eq_floor q ?_
  by_contra hq
  exact absurd (le_trans (Int.floor_le_ceil q) (ceil_nonpos q (le_of_not_le hq))) (by omega)

-- Stat bounds after each resolver.

theorem practice_stats_inRange (s : GroupState) (tgt : Target)
    (attr : StatName) (r : Rand) (h : s.StatsInRange) :
    ((practice s tgt attr r).1).StatsInRange := by
  cases tgt with
  | solo i =>
      simp only [practice, GroupState.StatsInRange]
      split
      · exact h
      · intro x hx
        exact modifyIdx_forall s.idols i _ h
          (fun y => Idol.clamp_stats_inRange _) x hx
  | group =>
      simp only [practice, GroupState.StatsInRange]
      split
      · exact h
      · intro x hx
        exact mapIdxFrom_forall (P := fun i => i.stats.InRange) _
          (fun n y => Idol.clamp_stats_inRange _) 0 s.idols x hx

theorem workFlyers_stats_inRange (s : GroupState) (tgt : Target) (r : Rand)
    (h : s.StatsInRange) : ((workFlyers s tgt r).1).StatsInRange := by
  simp only [workFlyers, GroupState.StatsInRange]
  split
  · exact h
  · intro x hx
    exact applyToTarget_forall s.idols tgt _ h
      (fun y => apply_fatigue_inRange y 1 1) x hx

theorem workGuerilla_stats_inRange (s : GroupState) (tgt : Target) (r : Rand)
    (h : s.StatsInRange) : ((workGuerilla s tgt r).1).StatsInRange := by
  simp only [workGuerilla, GroupState.StatsInRange]
  split
  · exact h
  · intro x hx
    exact applyToTarget_forall s.idols tgt _ h
      (fun y => apply_fatigue_inRange y 4 3) x hx

theorem live_stats_inRange (s : GroupState) (k : Fin 3) (r : Rand)
    (h : s.StatsInRange) : ((live s k r).1).StatsInRange := by
  simp only [live, GroupState.StatsInRange]
  split
  · exact h
  · intro x hx
    rcases List.mem_map.1 hx with ⟨y, _, rfl⟩
    exact apply_fatigue_inRange y 6 5

theorem rest_day_stats_inRange (s : GroupState) (r : Rand)
    (_h : s.StatsInRange) : ((rest_day s r).1).StatsInRange := by
  simp only [rest_day, GroupState.StatsInRange]
  intro x hx
  exact mapIdxFrom_forall (P := fun i => i.stats.InRange) _
    (fun n y => Idol.clamp_stats_inRange _) 0 s.idols x hx

theorem end_day_stats_inRange (s : GroupState) (r : Rand)
    (h : s.StatsInRange) : ((end_day s r).1).StatsInRange := h

theorem state_from_dict_stats_inRange (d : StateDict) (g : GroupState)
    (hg : state_from_dict d = some g) : g.StatsInRange := by
  simp only [state_from_dict] at hg
  split at hg
  · exact absurd hg (by simp)
  · rw [Option.some_inj] at hg
    subst hg
    intro x hx
    rcases List.mem_map.1 hx with ⟨y, _, rfl⟩
    exact Idol.clamp_stats_inRange _

-- Concrete inputs used by the witnesses.

/-- A fixed assignment of every random draw, inside all ranges. -/
def r0 : Rand :=
  { baseGain := 3, soloExtra := 1, groupExtra := fun _ => 1,
    flyersBase := 10, crowdRoll := 1, guerillaBase := 20, guerillaRep := 0,
    sqrtFans := 6, hypeU := 0, walkIns := 20, perfU := 0, satU := 0,
    merch := 50, fanBonus := 5, lostRoll := 3,
    restStamina := fun _ => 8, restMental := fun _ => 7, drift := 1 }

/-- The draws of `r0` with the passive-drift draw at its minimum −1. -/
def rNegDrift : Rand :=
  { r0 with drift := -1 }

/-- The starting state with every performer's stamina raised to 98. -/
def s98 : GroupState :=
  { make_game with
      idols := make_game.idols.map
        (fun i => { i with stats := { i.stats with stamina := 98 } }) }

/-- The starting state with only 50 in funds. -/
def sPoor : GroupState :=
  { make_game with funds := 50 }

/-- The starting state with reputation −1.0. -/
def sRepNeg : GroupState :=
  { make_game with reputation := -1 }

-- ---------------------------- Claims ----------------------------

/-- C1: if every performer's five stats are integers in [1,100] before
the call, then after any engine operation (practice solo or group, work
flyers or guerilla live, live, rest, day cycle — any `Action` — and
after loading any snapshot) every stat is again in [1,100], for all
random draws. -/
theorem stats_clamped_after_every_operation (s : GroupState) (a : Action)
    (r : Rand) (h : s.StatsInRange) :
    ((step s a r).1).StatsInRange ∧
    ∀ (d : StateDict) (g : GroupState), state_from_dict d = some g →
      g.StatsInRange := by
  refine ⟨?_, state_from_dict_stats_inRange⟩
  cases a with
  | practiceAct tgt attr => exact practice_stats_inRange s tgt attr r h
  | workAct tgt act =>
      cases act with
      | flyers => exact workFlyers_stats_inRange s tgt r h
      | guerilla => exact workGuerilla_stats_inRange s tgt r h
  | liveAct k => exact live_stats_inRange s k r h
  | restAct => exact rest_day_stats_inRange s r h
  | endDayAct => exact end_day_stats_inRange s r h

/-- Witness for C1: the scenario of the claim — every performer at
stamina 98 goes through a rest day and every stat, stamina included, is
back in [1,100]. -/
theorem stats_clamped_after_every_operation_witness :
    s98.StatsInRange ∧ ((step s98 Action.restAct r0).1).StatsInRange :=
  ⟨by decide,
   (stats_clamped_after_every_operation s98 Action.restAct r0 (by decide)).1⟩

-- Fan-count behaviour of each resolver (helpers shared by several claims).

theorem practice_fans_eq (s : GroupState) (tgt : Target) (attr : StatName)
    (r : Rand) : ((practice s tgt attr r).1).fans = s.fans := by
  cases tgt <;> simp only [practice] <;> split <;> rfl

theorem rest_day_fans_eq (s : GroupState) (r : Rand) :
    ((rest_day s r).1).fans = s.fans := rfl

theorem workFlyers_fans_ge (s : GroupState) (tgt : Target) (r : Rand) :
    s.fans ≤ ((workFlyers s tgt r).1).fans := by
  simp only [workFlyers]
  split
  · exact le_refl _
  · dsimp only
    omega

theorem workFlyers_fans_gain (s : GroupState) (tgt : Target) (r : Rand)
    (h : ¬ s.funds < 60) : s.fans + 5 ≤ ((workFlyers s tgt r).1).fans := by
  simp only [workFlyers]
  rw [if_neg h]
  dsimp only
  omega

theorem workGuerilla_fans_ge (s : GroupState) (tgt : Target) (r : Rand) :
    s.fans ≤ ((workGuerilla s tgt r).1).fans := by
  simp only [workGuerilla]
  split
  · exact le_refl _
  · dsimp only
    omega

theorem workGuerilla_fans_gain (s : GroupState) (tgt : Target) (r : Rand)
    (h : ¬ s.funds < 140) : s.fans + 6 ≤ ((workGuerilla s tgt r).1).fans := by
  simp only [workGuerilla]
  rw [if_neg h]
  dsimp only
  omega

theorem end_day_fans_ge (s : GroupState) (r : Rand) :
    s.fans ≤ ((end_day s r).1).fans := by
  simp only [end_day]
  split <;> omega

theorem live_fans_nonneg (s : GroupState) (k : Fin 3) (r : Rand)
    (h : 0 ≤ s.fans) : 0 ≤ ((live s k r).1).fans := by
  simp only [live]
  split
  · exact h
  · dsimp only
    omega

/-- C2: starting from a nonnegative fan count, every action resolver and
every day-cycle tick leaves the fan count nonnegative, for all random
draws — including the live branch that subtracts lost fans. -/
theorem fans_nonneg_after_every_operation (s : GroupState) (a : Action)
    (r : Rand) (h : 0 ≤ s.fans) : 0 ≤ ((step s a r).1).fans := by
  cases a with
  | practiceAct tgt attr => rw [step, practice_fans_eq]; exact h
  | workAct tgt act =>
      cases act with
      | flyers => exact le_trans h (workFlyers_fans_ge s tgt r)
      | guerilla => exact le_trans h (workGuerilla_fans_ge s tgt r)
  | liveAct k => exact live_fans_nonneg s k r h
  | restAct => exact h
  | endDayAct => exact le_trans h (end_day_fans_ge s r)

/-- Witness for C2: the starting state going through a live keeps a
nonnegative fan count. -/
theorem fans_nonneg_after_every_operation_witness :
    0 ≤ ((step make_game (Action.liveAct 0) r0).1).fans :=
  fans_nonneg_after_every_operation make_game (Action.liveAct 0) r0 (by decide)

/-- C3: whenever funds are strictly below the invoked action's fixed
cost (120 solo practice, 220 group practice, 60 flyers, 140 guerilla
live, 350 live venue), the resolver returns the insufficient-funds
outcome and the returned state is exactly the input state — every field
unchanged. -/
theorem aborted_action_leaves_state_unchanged (s : GroupState) (a : Action)
    (r : Rand) (c : ℤ) (hc : a.paidCost = some c) (hf : s.funds < c) :
    step s a r = (s, Outcome.insufficientFunds) := by
  cases a with
  | practiceAct tgt attr =>
      cases tgt with
      | solo i =>
          simp only [Action.paidCost, Option.some_inj] at hc
          subst hc
          simp only [step, practice]
          rw [if_pos hf]
      | group =>
          simp only [Action.paidCost, Option.some_inj] at hc
          subst hc
          simp only [step, practice]
          rw [if_pos hf]
  | workAct tgt act =>
      cases act with
      | flyers =>
          simp only [Action.paidCost, Option.some_inj] at hc
          subst hc
          simp only [step, work, workFlyers]
          rw [if_pos hf]
      | guerilla =>
          simp only [Action.paidCost, Option.some_inj] at hc
          subst hc
          simp only [step, work, workGuerilla]
          rw [if_pos hf]
  | liveAct k =>
      simp only [Action.paidCost, Option.some_inj] at hc
      subst hc
      simp only [step, live]
      rw [if_pos hf]
  | restAct => simp [Action.paidCost] at hc
  | endDayAct => simp [Action.paidCost] at hc

/-- Witness for C3: with 50 in funds, solo practice (cost 120) aborts
and returns the state untouched. -/
theorem aborted_action_leaves_state_unchanged_witness :
    step sPoor (Action.practiceAct (Target.solo 0) StatName.vocal) r0
      = (sPoor, Outcome.insufficientFunds) :=
  aborted_action_leaves_state_unchanged sPoor
    (Action.practiceAct (Target.solo 0) StatName.vocal) r0 120 rfl (by decide)

-- Funds behaviour of each resolver.

theorem live_funds_eq (s : GroupState) (k : Fin 3) (r : Rand)
    (h : ¬ s.funds < 350) :
    ((live s k r).1).funds
      = s.funds + liveTurnout s.fans (liveHype s r) r.walkIns * (400 + r.merch)
        - 350 := by
  simp only [live]
  rw [if_neg h]

/-- C4: starting from nonnegative funds, funds stay nonnegative after
every engine operation, for all random draws in range: each paid action
debits its cost only after the affordability check, and the live
settlement `funds += income − 350` runs only when `funds ≥ 350` with
`income ≥ 0` (the merch draw is in its range [40, 90], so the per-head
price is positive; every other draw is arbitrary). -/
theorem funds_nonneg_after_every_operation (s : GroupState) (a : Action)
    (r : Rand) (hm : 40 ≤ r.merch) (h : 0 ≤ s.funds) :
    0 ≤ ((step s a r).1).funds := by
  cases a with
  | practiceAct tgt attr =>
      cases tgt <;> simp only [step, practice] <;> split <;> dsimp only <;> omega
  | workAct tgt act =>
      cases act <;> simp only [step, work, workFlyers, workGuerilla] <;>
        split <;> dsimp only <;> omega
  | liveAct k =>
      simp only [step]
      by_cases hf : s.funds < 350
      · simp only [live]
        rw [if_pos hf]
        exact h
      · rw [live_funds_eq s k r hf]
        have ht : 0 ≤ liveTurnout s.fans (liveHype s r) r.walkIns :=
          le_max_left 0 _
        have : 0 ≤ liveTurnout s.fans (liveHype s r) r.walkIns * (400 + r.merch) :=
          mul_nonneg ht (by omega)
        omega
  | restAct => exact h
  | endDayAct => exact h

/-- Witness for C4: the starting state holding a live keeps funds
nonnegative. -/
theorem funds_nonneg_after_every_operation_witness :
    0 ≤ ((step make_game (Action.liveAct 0) r0).1).funds :=
  funds_nonneg_after_every_operation make_game (Action.liveAct 0) r0
    (by decide) (by decide)

/-- C5: for every real-valued satisfaction exactly one tier applies,
checked in descending order — ≥62 gives multiplier 0.22 and reputation
delta +0.10, else ≥54 gives 0.14 and +0.05, else ≥48 gives 0.08 and
+0.02, otherwise 0.04 and −0.01 — and a completed live uses exactly the
selected multiplier for its fan gain and the selected delta for its
reputation update. -/
theorem satisfaction_tier_total_and_used (sat : ℚ) (s : GroupState)
    (k : Fin 3) (r : Rand) (hf : ¬ s.funds < 350) :
    ((62 ≤ sat →
        tier sat = ("The crowd roared - people stayed to watch twice.",
          0.22, 0.10)) ∧
     (¬ 62 ≤ sat → 54 ≤ sat →
        tier sat = ("A warm reception - new faces asked for your next schedule.",
          0.14, 0.05)) ∧
     (¬ 62 ≤ sat → ¬ 54 ≤ sat → 48 ≤ sat →
        tier sat = ("A decent showing - some cheers, some polite claps.",
          0.08, 0.02)) ∧
     (¬ 62 ≤ sat → ¬ 54 ≤ sat → ¬ 48 ≤ sat →
        tier sat = ("Nerves showed - but you finished the song together.",
          0.04, -0.01))) ∧
    ((live s k r).1).reputation
      = s.reputation + (tier (liveSatisfaction s k r)).2.2 ∧
    ((live s k r).1).fans
      = max 0 (s.fans
          + itrunc ((liveTurnout s.fans (liveHype s r) r.walkIns : ℚ)
              * (tier (liveSatisfaction s k r)).2.1 + (r.fanBonus : ℚ))
          - (if liveSatisfaction s k r < 46
             then itrunc (min ((s.fans : ℚ) * 0.03) ((r.lostRoll : ℤ) : ℚ))
             else 0)) := by
  refine ⟨⟨?_, ?_, ?_, ?_⟩, ?_, ?_⟩
  · intro h1; rw [tier, if_pos h1]
  · intro h1 h2; rw [tier, if_neg h1, if_pos h2]
  · intro h1 h2 h3; rw [tier, if_neg h1, if_neg h2, if_pos h3]
  · intro h1 h2 h3; rw [tier, if_neg h1, if_neg h2, if_neg h3]
  · simp only [live]; rw [if_neg hf]
  · simp only [live]; rw [if_neg hf]

/-- Witness for C5: satisfaction 70 lands in the top tier with
multiplier 0.22 and reputation delta +0.10. -/
theorem satisfaction_tier_total_and_used_witness :
    tier 70 = ("The crowd roared - people stayed to watch twice.",
      0.22, 0.10) :=
  (satisfaction_tier_total_and_used 70 make_game 0 r0 (by decide)).1.1
    (by decide)

/-- C8: the day cycle adds exactly 1 to the day counter; with
`drift = ⌊reputation·2 + randint(−1,3)⌋` the fan count grows by exactly
`drift` when `drift > 0` and is unchanged otherwise (never decreased),
and no other field of the state is mutated. -/
theorem end_day_day_and_drift (s : GroupState) (r : Rand) (h : 0 ≤ s.fans) :
    ((end_day s r).1).day = s.day + 1 ∧
    ((end_day s r).1).fans =
      (if 0 < ⌊s.reputation * 2 + ((r.drift : ℤ) : ℚ)⌋
       then s.fans + ⌊s.reputation * 2 + ((r.drift : ℤ) : ℚ)⌋
       else s.fans) ∧
    s.fans ≤ ((end_day s r).1).fans ∧
    ((end_day s r).1).funds = s.funds ∧
    ((end_day s r).1).reputation = s.reputation ∧
    ((end_day s r).1).idols = s.idols ∧
    ((end_day s r).1).name = s.name ∧
    ((end_day s r).1).agency = s.agency ∧
    ((end_day s r).1).ai_name = s.ai_name ∧
    ((end_day s r).1).last_live_report = s.last_live_report := by
  refine ⟨rfl, ?_, end_day_fans_ge s r, rfl, rfl, rfl, rfl, rfl, rfl, rfl⟩
  simp only [end_day]
  by_cases hp : 0 < ⌊s.reputation * 2 + ((r.drift : ℤ) : ℚ)⌋
  · rw [if_pos hp, itrunc_eq_floor_of_floor_pos _ hp, if_pos hp]
    omega
  · rw [if_neg hp]
    have ht : ¬ 0 < itrunc (s.reputation * 2 + ((r.drift : ℤ) : ℚ)) := by
      rw [itrunc_pos_iff]; exact hp
    rw [if_neg ht]
    omega

/-- Witness for C8: with reputation −1.0 and a drift draw of −1 the fan
count is unchanged and the day advances by 1. -/
theorem end_day_day_and_drift_witness :
    ((end_day sRepNeg rNegDrift).1).day = sRepNeg.day + 1 ∧
    ((end_day sRepNeg rNegDrift).1).fans = sRepNeg.fans := by
  have h := end_day_day_and_drift sRepNeg rNegDrift (by decide)
  refine ⟨h.1, ?_⟩
  rw [h.2.1]
  have hq : sRepNeg.reputation * 2 + ((rNegDrift.drift : ℤ) : ℚ)
      = ((-3 : ℤ) : ℚ) := by
    show (-1 : ℚ) * 2 + ((-1 : ℤ) : ℚ) = ((-3 : ℤ) : ℚ)
    norm_num
  rw [hq, Int.floor_intCast]
  rfl

-- ---------------------------- Turnout (C6) ----------------------------

/-- The turnout formula exactly as the specification words it:
`clamp(fans·(0.18 + min(0.22, hype/200)) + walkIns, 0, 300)` over the
reals, with no integer truncation.  Defined only to compare against the
code's `liveTurnout`. -/
def turnoutSpec (fans : ℤ) (hype : ℚ) (walkIns : ℤ) : ℚ :=
  max 0 (min 300 ((fans : ℚ) * (0.18 + min 0.22 (hype / 200)) + (walkIns : ℚ)))

/-- Counterexample to C6 as stated: at fans = 1, hype = 0, walk-ins = 15
the code's turnout is 15 — `int()` truncates the expected value 15.18
before the clamp — while the claimed formula yields 15.18. -/
theorem live_turnout_differs_from_spec_formula :
    ((liveTurnout 1 0 15 : ℤ) : ℚ) ≠ turnoutSpec 1 0 15 := by
  have he : ((1 : ℤ) : ℚ) * (0.18 + min 0.22 ((0 : ℚ) / 200)) + ((15 : ℤ) : ℚ)
      = 15.18 := by norm_num
  have h1 : liveTurnout 1 0 15 = 15 := by
    rw [liveTurnout, he, itrunc_eq_floor _ (by norm_num)]
    have hfl : ⌊(15.18 : ℚ)⌋ = 15 := by
      rw [Int.floor_eq_iff]
      constructor <;> norm_num
    rw [hfl]
    decide
  have h2 : turnoutSpec 1 0 15 = 15.18 := by
    rw [turnoutSpec, he]
    norm_num
  rw [h1, h2]
  norm_num

/-- C6 (amended): the live turnout equals the clamp to [0, 300] of the
integer truncation (Python `int()`) of
`fans·(0.18 + min(0.22, hype/200)) + walkIns` — truncation before
clamping is the one correction to the claim — this turnout is the one
the funds settlement uses, and it always lies within [0, 300] whatever
the magnitudes of fans and hype. -/
theorem live_turnout_clamped (s : GroupState) (k : Fin 3) (r : Rand)
    (hf : ¬ s.funds < 350) (fans walkIns : ℤ) (hype : ℚ) :
    ((live s k r).1).funds
      = s.funds + liveTurnout s.fans (liveHype s r) r.walkIns * (400 + r.merch)
        - 350 ∧
    liveTurnout fans hype walkIns
      = max 0 (min 300 (itrunc ((fans : ℚ) * (0.18 + min 0.22 (hype / 200))
          + (walkIns : ℚ)))) ∧
    0 ≤ liveTurnout fans hype walkIns ∧
    liveTurnout fans hype walkIns ≤ 300 := by
  refine ⟨live_funds_eq s k r hf, rfl, le_max_left 0 _, ?_⟩
  exact max_le (by decide) (min_le_left _ _)

/-- Witness for C6's amended theorem at the counterexample's inputs. -/
theorem live_turnout_clamped_witness :
    0 ≤ liveTurnout 1 0 15 ∧ liveTurnout 1 0 15 ≤ 300 :=
  ⟨(live_turnout_clamped make_game 0 r0 (by decide) 1 15 0).2.2.1,
   (live_turnout_clamped make_game 0 r0 (by decide) 1 15 0).2.2.2⟩

-- ---------------------------- Live profitability (C9) ----------------------------

/-- C9: a live that runs to completion (funds ≥ 350 and fans ≥ 0 at
entry) draws turnout at least 15 from walk-ins alone, hence income
`turnout·(400 + merch)` at least 15·440 = 6600, and funds strictly
increase over the invocation. -/
theorem live_never_loses_money (s : GroupState) (k : Fin 3) (r : Rand)
    (hf : ¬ s.funds < 350) (hfans : 0 ≤ s.fans)
    (hw : 15 ≤ r.walkIns) (hm : 40 ≤ r.merch) :
    15 ≤ liveTurnout s.fans (liveHype s r) r.walkIns ∧
    6600 ≤ liveTurnout s.fans (liveHype s r) r.walkIns * (400 + r.merch) ∧
    s.funds < ((live s k r).1).funds := by
  have hhype : 0 ≤ liveHype s r := le_max_left 0 _
  have hfac : 0 ≤ 0.18 + min (0.22 : ℚ) (liveHype s r / 200) := by
    have h1 : 0 ≤ min (0.22 : ℚ) (liveHype s r / 200) :=
      le_min (by norm_num) (div_nonneg hhype (by norm_num))
    linarith
  have hexpr : (15 : ℚ)
      ≤ (s.fans : ℚ) * (0.18 + min 0.22 (liveHype s r / 200))
        + (r.walkIns : ℚ) := by
    have h2 : (0 : ℚ) ≤ (s.fans : ℚ) * (0.18 + min 0.22 (liveHype s r / 200)) :=
      mul_nonneg (by exact_mod_cast hfans) hfac
    have h3 : (15 : ℚ) ≤ (r.walkIns : ℚ) := by exact_mod_cast hw
    linarith
  have ht : 15 ≤ liveTurnout s.fans (liveHype s r) r.walkIns := by
    rw [liveTurnout]
    have h4 : (15 : ℤ) ≤ itrunc ((s.fans : ℚ)
        * (0.18 + min 0.22 (liveHype s r / 200)) + (r.walkIns : ℚ)) :=
      le_itrunc 15 _ (by decide) (by exact_mod_cast hexpr)
    omega
  have hinc : 6600
      ≤ liveTurnout s.fans (liveHype s r) r.walkIns * (400 + r.merch) := by
    nlinarith [ht, hm]
  refine ⟨ht, hinc, ?_⟩
  rw [live_funds_eq s k r hf]
  omega

/-- Witness for C9 at the starting state. -/
theorem live_never_loses_money_witness :
    15 ≤ liveTurnout make_game.fans (liveHype make_game r0) r0.walkIns ∧
    make_game.funds < ((live make_game 0 r0).1).funds :=
  ⟨(live_never_loses_money make_game 0 r0 (by decide) (by decide)
      (by decide) (by decide)).1,
   (live_never_loses_money make_game 0 r0 (by decide) (by decide)
      (by decide) (by decide)).2.2⟩

-- ---------------------------- Fan monotonicity (C10) ----------------------------

theorem tier_fanMult_nonneg (q : ℚ) : 0 ≤ (tier q).2.1 := by
  rw [tier]
  split
  · norm_num
  · split
    · norm_num
    · split <;> norm_num

theorem live_fans_val (s : GroupState) (k : Fin 3) (r : Rand)
    (hf : ¬ s.funds < 350) :
    ((live s k r).1).fans
      = max 0 (s.fans
          + itrunc ((liveTurnout s.fans (liveHype s r) r.walkIns : ℚ)
              * (tier (liveSatisfaction s k r)).2.1 + (r.fanBonus : ℚ))
          - (if liveSatisfaction s k r < 46
             then itrunc (min ((s.fans : ℚ) * 0.03) ((r.lostRoll : ℤ) : ℚ))
             else 0)) := by
  simp only [live]
  rw [if_neg hf]

theorem live_gained_nonneg (s : GroupState) (k : Fin 3) (r : Rand)
    (hb : 2 ≤ r.fanBonus) :
    0 ≤ itrunc ((liveTurnout s.fans (liveHype s r) r.walkIns : ℚ)
        * (tier (liveSatisfaction s k r)).2.1 + (r.fanBonus : ℚ)) := by
  refine le_itrunc 0 _ (le_refl 0) ?_
  have h1 : (0 : ℚ) ≤ (liveTurnout s.fans (liveHype s r) r.walkIns : ℚ) := by
    exact_mod_cast le_max_left 0 _
  have h2 : (0 : ℚ) ≤ (r.fanBonus : ℚ) := by
    have : (0 : ℤ) ≤ r.fanBonus := by omega
    exact_mod_cast this
  have h3 := tier_fanMult_nonneg (liveSatisfaction s k r)
  have h4 := mul_nonneg h1 h3
  push_cast
  linarith

theorem live_lost_le (s : GroupState) (k : Fin 3) (r : Rand)
    (hfans : 0 ≤ s.fans) (hl : r.lostRoll ≤ 8) :
    (((if liveSatisfaction s k r < 46
        then itrunc (min ((s.fans : ℚ) * 0.03) ((r.lostRoll : ℤ) : ℚ))
        else 0) : ℤ) : ℚ)
      ≤ min ((s.fans : ℚ) * 0.03) 8 := by
  have h8 : (0 : ℚ) ≤ min ((s.fans : ℚ) * 0.03) 8 :=
    le_min (mul_nonneg (by exact_mod_cast hfans) (by norm_num)) (by norm_num)
  split
  · rcases le_or_lt 0 (min ((s.fans : ℚ) * 0.03) ((r.lostRoll : ℤ) : ℚ)) with h0 | h0
    · have h1 : (itrunc (min ((s.fans : ℚ) * 0.03) ((r.lostRoll : ℤ) : ℚ)) : ℚ)
          ≤ min ((s.fans : ℚ) * 0.03) ((r.lostRoll : ℤ) : ℚ) := itrunc_le _ h0
      have h2 : min ((s.fans : ℚ) * 0.03) ((r.lostRoll : ℤ) : ℚ)
          ≤ min ((s.fans : ℚ) * 0.03) 8 := by
        refine le_min (min_le_left _ _) ?_
        refine le_trans (min_le_right _ _) ?_
        exact_mod_cast hl
      linarith
    · have h1 : itrunc (min ((s.fans : ℚ) * 0.03) ((r.lostRoll : ℤ) : ℚ)) ≤ 0 :=
        itrunc_nonpos _ h0.le
      have h2 : ((itrunc (min ((s.fans : ℚ) * 0.03) ((r.lostRoll : ℤ) : ℚ)) : ℤ) : ℚ)
          ≤ 0 := by exact_mod_cast h1
      linarith
  · push_cast
    exact h8

/-- C10: the fan count never decreases under practice, flyers (gain
floored at 5), guerilla live (gain floored at 6), rest, or the day
cycle, for all random draws; only the live resolver can decrease fans,
only when satisfaction < 46, and then by at most
min(3% of the pre-update fan count, 8). -/
theorem fans_monotone_except_live (s : GroupState) (r : Rand) :
    (∀ (tgt : Target) (attr : StatName),
      ((practice s tgt attr r).1).fans = s.fans) ∧
    (∀ tgt : Target, s.fans ≤ ((workFlyers s tgt r).1).fans) ∧
    (∀ tgt : Target, ¬ s.funds < 60 →
      s.fans + 5 ≤ ((workFlyers s tgt r).1).fans) ∧
    (∀ tgt : Target, s.fans ≤ ((workGuerilla s tgt r).1).fans) ∧
    (∀ tgt : Target, ¬ s.funds < 140 →
      s.fans + 6 ≤ ((workGuerilla s tgt r).1).fans) ∧
    ((rest_day s r).1).fans = s.fans ∧
    s.fans ≤ ((end_day s r).1).fans ∧
    (∀ k : Fin 3, 2 ≤ r.fanBonus → ¬ liveSatisfaction s k r < 46 →
      s.fans ≤ ((live s k r).1).fans) ∧
    (∀ k : Fin 3, 0 ≤ s.fans → 2 ≤ r.fanBonus → r.lostRoll ≤ 8 →
      (s.fans : ℚ) - min ((s.fans : ℚ) * 0.03) 8
        ≤ (((live s k r).1).fans : ℚ)) := by
  refine ⟨fun tgt attr => practice_fans_eq s tgt attr r,
    fun tgt => workFlyers_fans_ge s tgt r,
    fun tgt h => workFlyers_fans_gain s tgt r h,
    fun tgt => workGuerilla_fans_ge s tgt r,
    fun tgt h => workGuerilla_fans_gain s tgt r h,
    rest_day_fans_eq s r,
    end_day_fans_ge s r,
    ?_, ?_⟩
  · intro k hb hs
    by_cases hf : s.funds < 350
    · simp only [live]
      rw [if_pos hf]
    · rw [live_fans_val s k r hf, if_neg hs]
      have hg := live_gained_nonneg s k r hb
      omega
  · intro k hfans hb hl
    by_cases hf : s.funds < 350
    · simp only [live]
      rw [if_pos hf]
      have h8 : (0 : ℚ) ≤ min ((s.fans : ℚ) * 0.03) 8 :=
        le_min (mul_nonneg (by exact_mod_cast hfans) (by norm_num)) (by norm_num)
      linarith
    · rw [live_fans_val s k r hf]
      have hg := live_gained_nonneg s k r hb
      have hlost := live_lost_le s k r hfans hl
      set G := itrunc ((liveTurnout s.fans (liveHype s r) r.walkIns : ℚ)
          * (tier (liveSatisfaction s k r)).2.1 + (r.fanBonus : ℚ)) with hG
      set L := (if liveSatisfaction s k r < 46
          then itrunc (min ((s.fans : ℚ) * 0.03) ((r.lostRoll : ℤ) : ℚ))
          else 0) with hL
      have h2 : ((s.fans + G - L : ℤ) : ℚ) ≤ ((max 0 (s.fans + G - L) : ℤ) : ℚ) := by
        exact_mod_cast le_max_right (0 : ℤ) (s.fans + G - L)
      push_cast at h2
      have h3 : (0 : ℚ) ≤ (G : ℚ) := by exact_mod_cast hg
      push_cast
      linarith

/-- Witness for C10: at the starting state, practice leaves fans
unchanged and a flyer run adds at least 5 fans. -/
theorem fans_monotone_except_live_witness :
    ((practice make_game (Target.solo 0) StatName.vocal r0).1).fans
      = make_game.fans ∧
    make_game.fans + 5 ≤ ((workFlyers make_game Target.group r0).1).fans :=
  ⟨(fans_monotone_except_live make_game r0).1 (Target.solo 0) StatName.vocal,
   (fans_monotone_except_live make_game r0).2.2.1 Target.group (by decide)⟩

-- ---------------------------- Round trip (C7) ----------------------------

theorem idol_round_trip (i : Idol) (h : i.stats.InRange) :
    idol_from_dict (idol_to_dict i) = i := by
  obtain ⟨nm, ag, rl, bl, st⟩ := i
  simp only [idol_to_dict, idol_from_dict, stats_from_dict, Option.getD_some,
    Idol.clamp_stats, Idol.mk.injEq, true_and]
  exact Stats.clamp_of_inRange st h

/-- C7: serializing a well-formed GroupState (roster of exactly 3
performers, every stat an integer in [1,100]) with `_state_to_dict` and
deserializing with `_state_from_dict` yields the same GroupState — every
scalar field and every performer record, in order. -/
theorem state_round_trip (s : GroupState) (hlen : s.idols.length = 3)
    (hst : s.StatsInRange) :
    state_from_dict (state_to_dict s) = some s := by
  have hmap : (s.idols.map idol_to_dict).map idol_from_dict = s.idols := by
    rw [List.map_map]
    calc s.idols.map (idol_from_dict ∘ idol_to_dict)
        = s.idols.map id := List.map_congr_left (fun x hx => by
          simp only [Function.comp_apply, id]
          exact idol_round_trip x (hst x hx))
      _ = s.idols := List.map_id _
  have hne : ((s.idols.map idol_to_dict).map idol_from_dict).isEmpty ≠ true := by
    rw [hmap]
    cases hl : s.idols with
    | nil => rw [hl] at hlen; simp at hlen
    | cons a l => simp [List.isEmpty]
  simp only [state_from_dict, state_to_dict, Option.getD_some]
  rw [if_neg hne, hmap]

/-- Witness for C7: the starting state round-trips. -/
theorem state_round_trip_witness :
    state_from_dict (state_to_dict make_game) = some make_game :=
  state_round_trip make_game rfl (by decide)

end Mirai
